import Mathlib

set_option maxRecDepth 8000

namespace STCAModel

/-- Values stored in a ledger record. The source keeps strings (prompt,
image_url, image_name, passthrough metadata) and booleans (the safety flag
written by the safety driver). -/
inductive PyVal where
  | str (s : String)
  | bool (b : Bool)
deriving DecidableEq, Repr

/-- Python exceptions that the modelled code can raise or catch. -/
inductive PyError where
  | typeError
  | attributeError
  | keyError
  | providerError
  | zeroDivisionError
deriving DecidableEq, Repr

/-- Model of a Python dict with string keys, as an insertion-ordered
association list (keys kept unique by construction). -/
abbrev Dict := List (String × PyVal)

/-- Dict lookup: d[k] as an Option (none models a missing key). -/
def dictGet : Dict → String → Option PyVal
  | [], _ => none
  | (k1, v1) :: t, k => if k1 = k then some v1 else dictGet t k

/-- Dict assignment d[k] = v: overwrites in place if the key exists,
otherwise appends at the end (Python insertion order). -/
def dictSet : Dict → String → PyVal → Dict
  | [], k, v => [(k, v)]
  | (k1, v1) :: t, k, v => if k1 = k then (k, v) :: t else (k1, v1) :: dictSet t k v

/-- Dict key removal, as done by d.pop(k, None) for its removal effect. -/
def dictPop : Dict → String → Dict
  | [], _ => []
  | (k1, v1) :: t, k => if k1 = k then dictPop t k else (k1, v1) :: dictPop t k

/-- Decimal digit character for n (callers pass n < 10). -/
def digitChar (n : Nat) : Char :=
  if n = 0 then '0' else if n = 1 then '1' else if n = 2 then '2' else if n = 3 then '3'
  else if n = 4 then '4' else if n = 5 then '5' else if n = 6 then '6' else if n = 7 then '7'
  else if n = 8 then '8' else '9'

/-- Fuel-driven decimal rendering loop (least significant digit first into
the accumulator), mirroring standard decimal formatting of f-strings. -/
def digitsAux : Nat → Nat → List Char → List Char
  | 0, _, acc => acc
  | f + 1, n, acc =>
    if n < 10 then digitChar (n % 10) :: acc
    else digitsAux f (n / 10) (digitChar (n % 10) :: acc)

/-- Decimal rendering of a natural number as Python str(i) produces. -/
def natToDigits (n : Nat) : List Char := digitsAux (n + 1) n []

/-- Filename built by the generation driver: the f-string image_{i}.png. -/
def imageName (i : Nat) : String :=
  String.mk ("image_".data ++ natToDigits i ++ ".png".data)

/-- Numeric value of a digit string, as int() applied to the regex group. -/
def valDigits (ds : List Char) : Nat :=
  ds.foldl (fun a c => a * 10 + (c.toNat - 48)) 0

/-- Splits off a trailing ".png" from a character list, if present. -/
def splitTail (l : List Char) : Option (List Char) :=
  if 4 ≤ l.length ∧ l.drop (l.length - 4) = ['.', 'p', 'n', 'g'] then
    some (l.take (l.length - 4))
  else none

/-- Match of the anchored regex image_(d+).png against a filename given as
a character list; returns the captured index when it matches. -/
def parseChars : List Char → Option Nat
  | 'i' :: 'm' :: 'a' :: 'g' :: 'e' :: '_' :: rest =>
    match splitTail rest with
    | some ds => if ds ≠ [] ∧ ds.all Char.isDigit then some (valDigits ds) else none
    | none => none
  | _ => none

/-- Match of the regex pattern from existing_image_set against a filename. -/
def parseImageIndex (f : String) : Option Nat := parseChars f.data

/-- Source existing_image_set(directory, "index"): the indexes of files in
the listing that match image_(d+).png (a list; used as a set). -/
def imageIndices (files : List String) : List Nat := files.filterMap parseImageIndex

/-- Source existing_image_set(directory, "name"): the filenames in the
listing that match image_(d+).png. -/
def matchingNames (files : List String) : List String :=
  files.filter (fun f => (parseImageIndex f).isSome)

/-- Fuel-driven translation of the while loop in find_available_image_index:
starting from i, advance while i is among the existing indexes. -/
def findIdxFrom (s : List Nat) : Nat → Nat → Nat
  | 0, i => i
  | f + 1, i => if i ∈ s then findIdxFrom s f (i + 1) else i

/-- Source find_available_image_index: smallest image index not present in
the directory listing. Fuel length + 1 always suffices (see the spec lemma). -/
def find_available_image_index (files : List String) : Nat :=
  findIdxFrom (imageIndices files) ((imageIndices files).length + 1) 0

lemma digitChar_isDigit (n : Nat) : (digitChar n).isDigit = true := by
  unfold digitChar
  repeat' split
  all_goals decide

lemma digitChar_toNat (n : Nat) (h : n < 10) : (digitChar n).toNat - 48 = n := by
  interval_cases n <;> decide

lemma digitsAux_spec :
    ∀ (f : Nat) (n : Nat) (acc : List Char), n < 10 ^ (f + 1) →
      ∃ ds, digitsAux (f + 1) n acc = ds ++ acc ∧ ds ≠ [] ∧
        (∀ c ∈ ds, c.isDigit = true) ∧ valDigits ds = n := by
  intro f
  induction f with
  | zero =>
    intro n acc h
    have h10 : n < 10 := by simpa using h
    refine ⟨[digitChar (n % 10)], ?_, by simp, ?_, ?_⟩
    · simp [digitsAux, h10]
    · intro c hc
      simp at hc
      subst hc
      exact digitChar_isDigit _
    · have hm : n % 10 = n := Nat.mod_eq_of_lt h10
      simp [valDigits, hm, digitChar_toNat n h10]
  | succ f ih =>
    intro n acc h
    by_cases h10 : n < 10
    · refine ⟨[digitChar (n % 10)], ?_, by simp, ?_, ?_⟩
      · simp [digitsAux, h10]
      · intro c hc
        simp at hc
        subst hc
        exact digitChar_isDigit _
      · have hm : n % 10 = n := Nat.mod_eq_of_lt h10
        simp [valDigits, hm, digitChar_toNat n h10]
    · have hstep : digitsAux (f + 1 + 1) n acc
          = digitsAux (f + 1) (n / 10) (digitChar (n % 10) :: acc) := by
        simp [digitsAux, h10]
      have hdiv : n / 10 < 10 ^ (f + 1) := by
        have hp : 10 ^ (f + 1 + 1) = 10 ^ (f + 1) * 10 := by ring
        rw [hp] at h
        exact Nat.div_lt_of_lt_mul (by omega)
      obtain ⟨ds, hds, hne, hdig, hval⟩ := ih (n / 10) (digitChar (n % 10) :: acc) hdiv
      refine ⟨ds ++ [digitChar (n % 10)], ?_, by simp [hne], ?_, ?_⟩
      · rw [hstep, hds]
        simp
      · intro c hc
        rcases List.mem_append.mp hc with hc | hc
        · exact hdig c hc
        · simp at hc
          subst hc
          exact digitChar_isDigit _
      · have hm : n % 10 < 10 := Nat.mod_lt _ (by omega)
        unfold valDigits
        rw [List.foldl_append]
        show valDigits ds * 10 + ((digitChar (n % 10)).toNat - 48) = n
        rw [hval, digitChar_toNat _ hm]
        omega

lemma natToDigits_spec (n : Nat) :
    natToDigits n ≠ [] ∧ (∀ c ∈ natToDigits n, c.isDigit = true) ∧
      valDigits (natToDigits n) = n := by
  have hlt : n < 10 ^ (n + 1) := by
    calc n < 10 ^ n := Nat.lt_pow_self (by omega) n
    _ ≤ 10 ^ (n + 1) := Nat.pow_le_pow_right (by omega) (by omega)
  obtain ⟨ds, hds, hne, hdig, hval⟩ := digitsAux_spec n n [] hlt
  unfold natToDigits
  rw [hds]
  simp only [List.append_nil]
  exact ⟨hne, hdig, hval⟩

lemma splitTail_append (ds : List Char) :
    splitTail (ds ++ ['.', 'p', 'n', 'g']) = some ds := by
  unfold splitTail
  have hlen : (ds ++ ['.', 'p', 'n', 'g']).length = ds.length + 4 := by simp
  rw [if_pos]
  · rw [hlen]
    simp only [Nat.add_sub_cancel]
    rw [List.take_left]
  · constructor
    · rw [hlen]; omega
    · rw [hlen]
      simp only [Nat.add_sub_cancel]
      rw [List.drop_left]

lemma parseChars_imageName (k : Nat) : parseImageIndex (imageName k) = some k := by
  obtain ⟨hne, hdig, hval⟩ := natToDigits_spec k
  show parseChars ("image_".data ++ natToDigits k ++ ".png".data) = some k
  have hd : "image_".data = ['i', 'm', 'a', 'g', 'e', '_'] := rfl
  rw [hd]
  simp only [List.cons_append, List.nil_append]
  have hstep : parseChars ('i' :: 'm' :: 'a' :: 'g' :: 'e' :: '_'
        :: (natToDigits k ++ ".png".data))
      = (match splitTail (natToDigits k ++ ".png".data) with
         | some ds => if ds ≠ [] ∧ ds.all Char.isDigit then some (valDigits ds) else none
         | none => none) := rfl
  rw [hstep]
  have hpng : ".png".data = ['.', 'p', 'n', 'g'] := rfl
  rw [hpng, splitTail_append]
  simp only []
  rw [if_pos ⟨hne, List.all_eq_true.mpr (fun c hc => hdig c hc)⟩, hval]

lemma exists_absent (s : List Nat) : ∃ j, j ≤ s.length ∧ j ∉ s := by
  by_contra h
  push_neg at h
  have hsub : Finset.range (s.length + 1) ⊆ s.toFinset := by
    intro j hj
    rw [Finset.mem_range] at hj
    rw [List.mem_toFinset]
    exact h j (Nat.lt_succ_iff.mp hj)
  have h1 := Finset.card_le_card hsub
  rw [Finset.card_range] at h1
  have h2 := s.toFinset_card_le
  omega

lemma findIdxFrom_spec (s : List Nat) :
    ∀ (fuel i : Nat), (∃ j, i ≤ j ∧ j < i + fuel ∧ j ∉ s) →
      findIdxFrom s fuel i ∉ s ∧ i ≤ findIdxFrom s fuel i ∧
        ∀ m, i ≤ m → m < findIdxFrom s fuel i → m ∈ s := by
  intro fuel
  induction fuel with
  | zero =>
    intro i h
    obtain ⟨j, h1, h2, _⟩ := h
    omega
  | succ f ih =>
    intro i h
    by_cases hi : i ∈ s
    · have hred : findIdxFrom s (f + 1) i = findIdxFrom s f (i + 1) := by
        simp [findIdxFrom, hi]
      have hex : ∃ j, i + 1 ≤ j ∧ j < (i + 1) + f ∧ j ∉ s := by
        obtain ⟨j, hj1, hj2, hj3⟩ := h
        refine ⟨j, ?_, by omega, hj3⟩
        rcases Nat.eq_or_lt_of_le hj1 with hji | hji
        · exact absurd hi (hji ▸ hj3)
        · omega
      obtain ⟨a, b, c⟩ := ih (i + 1) hex
      rw [hred]
      refine ⟨a, by omega, ?_⟩
      intro m hm1 hm2
      rcases Nat.eq_or_lt_of_le hm1 with hmi | hmi
      · exact hmi ▸ hi
      · exact c m hmi hm2
    · have hred : findIdxFrom s (f + 1) i = i := by
        simp [findIdxFrom, hi]
      rw [hred]
      exact ⟨hi, Nat.le_refl i, fun m hm1 hm2 => absurd hm2 (by omega)⟩

lemma findAvail_spec (files : List String) :
    find_available_image_index files ∉ imageIndices files ∧
      ∀ m, m < find_available_image_index files → m ∈ imageIndices files := by
  obtain ⟨j, hj1, hj2⟩ := exists_absent (imageIndices files)
  have h := findIdxFrom_spec (imageIndices files) ((imageIndices files).length + 1) 0
    ⟨j, Nat.zero_le j, by omega, hj2⟩
  exact ⟨h.1, fun m hm => h.2.2 m (Nat.zero_le m) hm⟩

/-- Element of the prompt list handed to generate_images: a bare string, a
dict, or a value of any other type (skipped as malformed by the driver). -/
inductive PromptItem where
  | pyStr (s : String)
  | pyDict (d : Dict)
  | pyOther
deriving DecidableEq, Repr

/-- Outcome of one provider call in generate_images: a url on success, an
OpenAIError (caught by the driver, the moderation-rejection signal), or any
other exception (uncaught, aborts the batch). -/
inductive GenOutcome where
  | ok (url : String)
  | openAIError
  | providerError
deriving DecidableEq, Repr

/-- Outcome of one is_img_unsafe call as seen by the safety driver: the
returned tri-state verdict, or an OpenAIError raised by the client. -/
inductive ClsResult where
  | ok (v : Option Bool)
  | apiErr
deriving DecidableEq, Repr

/-- Prompt normalization from the head of the generate_images loop: a dict
needs a prompt key (its value becomes the prompt, the dict itself becomes
the ledger record); a string becomes a fresh single-key record; everything
else raises TypeError, caught and skipped (none). -/
def normalize : PromptItem → Option (PyVal × Dict)
  | .pyStr s => some (.str s, [("prompt", .str s)])
  | .pyDict d =>
    match dictGet d "prompt" with
    | some v => some (v, d)
    | none => none
  | .pyOther => none

/-- Count of prompt items the driver skips as malformed. -/
def countMalformed (prompts : List PromptItem) : Nat :=
  (prompts.filter (fun p => (normalize p).isNone)).length

/-- Effect of a successful file write on the directory listing: a new name
is appended, an existing one is overwritten in place. -/
def addFile (files : List String) (n : String) : List String :=
  if n ∈ files then files else files ++ [n]

/-- Ledger reconciliation (the list comprehension at the top of
generate_images): keep the entries whose image_name is among the matching
filenames on disk; a record without the key raises KeyError (uncaught). -/
def reconcile (names : List String) : List Dict → Except PyError (List Dict)
  | [] => .ok []
  | d :: ds =>
    match dictGet d "image_name" with
    | none => .error .keyError
    | some (.str n) =>
      match reconcile names ds with
      | .error e => .error e
      | .ok rest => .ok (if n ∈ names then d :: rest else rest)
    | some (.bool _) =>
      reconcile names ds

/-- Reference filter describing what reconcile keeps when every record has
an image_name key. -/
def keptEntries (names : List String) (l : List Dict) : List Dict :=
  l.filter (fun d =>
    match dictGet d "image_name" with
    | some (.str n) => decide (n ∈ names)
    | _ => false)

/-- Body of the for-loop of generate_images over the prompt list. The
oracle gen gives the outcome of the provider call for the i-th prompt, and
dl i tells whether the download of step i wrote the file (requests.get
returned status 200). On success the record gains image_url and image_name,
the index is allocated from the current listing, and the record is appended
to the in-memory ledger; OpenAIError is caught and the loop continues; any
other provider fault propagates. -/
def genLoop (gen : Nat → PyVal → GenOutcome) (dl : Nat → Bool) :
    List PromptItem → Nat → List String → List Dict → Nat →
      Except PyError (List String × List Dict × Nat)
  | [], _, files, ledger, numGen => .ok (files, ledger, numGen)
  | p :: ps, i, files, ledger, numGen =>
    match normalize p with
    | none => genLoop gen dl ps (i + 1) files ledger numGen
    | some (v, info) =>
      match gen i v with
      | .openAIError => genLoop gen dl ps (i + 1) files ledger numGen
      | .providerError => .error .providerError
      | .ok url =>
        let info1 := dictSet info "image_url" (.str url)
        let nm := imageName (find_available_image_index files)
        let info2 := dictSet info1 "image_name" (.str nm)
        let files1 := if dl i then addFile files nm else files
        genLoop gen dl ps (i + 1) files1 (ledger ++ [info2]) (numGen + 1)

/-- Source generate_images. files0 is the directory listing, disk0 the
parsed content of prompts.json when the file exists. Returns the listing
after the run, the ledger written back to prompts.json, and the returned
pair (num_generated, len(prompts) - num_generated). -/
def generate_images (gen : Nat → PyVal → GenOutcome) (dl : Nat → Bool)
    (prompts : List PromptItem) (files0 : List String)
    (disk0 : Option (List Dict)) :
    Except PyError (List String × List Dict × Nat × Nat) :=
  match reconcile (matchingNames files0) (disk0.getD []) with
  | .error e => .error e
  | .ok recon =>
    match genLoop gen dl prompts 0 files0 recon 0 with
    | .error e => .error e
    | .ok (files1, ledger1, g) => .ok (files1, ledger1, g, prompts.length - g)

/-- Characters stripped by the source: strip(".,;!? "). -/
def stripSet : List Char := ['.', ',', ';', '!', '?', ' ']

/-- Strip the given characters from both ends of a character list, as the
Python str.strip method does. -/
def stripEnds (cs : List Char) (l : List Char) : List Char :=
  ((l.dropWhile (fun c => decide (c ∈ cs))).reverse.dropWhile
    (fun c => decide (c ∈ cs))).reverse

/-- Normalization applied to the raw classifier response in is_img_unsafe:
content[:3].strip(".,;!? ").lower(), over the character list of the text. -/
def procResponse (content : String) : List Char :=
  (stripEnds stripSet (content.data.take 3)).map Char.toLower

/-- Response interpretation of the source is_img_unsafe (its network call
abstracted away): maps the raw response text to the returned verdict, some
true for yes, some false for no, none otherwise. -/
def is_img_unsafe_of_response (content : String) : Option Bool :=
  let pr := procResponse content
  if pr = "yes".data then some true
  else if pr = "no".data then some false
  else none

/-- Processing of a single ledger record inside the img_safety_check loop.
Returns the (possibly updated) record, the counted verdict (none when the
record is skipped), and the names marked for quarantine copy. A missing
image_name raises ValueError (caught); a non-string image_name makes
os.path.join raise TypeError (uncaught); a missing file raises
FileNotFoundError (caught); an OpenAIError from the client is caught; an
indeterminate verdict raises ValueError before the record is updated
(caught). Only a definite verdict writes the flag into the record. -/
def safetyEntry (cls : String → ClsResult) (files : List String) (info : Dict) :
    Except PyError (Dict × Option Bool × List String) :=
  match dictGet info "image_name" with
  | none => .ok (info, none, [])
  | some (.bool _) => .error .typeError
  | some (.str nm) =>
    if nm ∈ files then
      match cls nm with
      | .apiErr => .ok (info, none, [])
      | .ok none => .ok (info, none, [])
      | .ok (some b) =>
        .ok (dictSet info "unsafe" (.bool b), some b, if b then [nm] else [])
    else .ok (info, none, [])

/-- For-loop of img_safety_check over the ledger records, accumulating the
updated in-memory records, both counters, and the quarantine name list. -/
def safetyLoop (cls : String → ClsResult) (files : List String) :
    List Dict → Except PyError (List Dict × Nat × Nat × List String)
  | [] => .ok ([], 0, 0, [])
  | info :: rest =>
    match safetyEntry cls files info with
    | .error e => .error e
    | .ok (info1, verdict, q1) =>
      match safetyLoop cls files rest with
      | .error e => .error e
      | .ok (mem, cu, cs, qn) =>
        .ok (info1 :: mem,
          (match verdict with | some true => cu + 1 | _ => cu),
          (match verdict with | some false => cs + 1 | _ => cs),
          q1 ++ qn)

/-- Source img_safety_check. files is the directory listing, disk the
parsed prompts.json content when that file exists (none models the
FileNotFoundError path, where the function prints and returns None).
The result carries the returned value (none for the bare return), the
on-disk ledger after the call, the in-memory record list after the loop,
and the names copied into the quarantine subdirectory. The source never
writes prompts.json back, so the on-disk ledger is returned unchanged. -/
def img_safety_check (cls : String → ClsResult) (files : List String)
    (disk : Option (List Dict)) :
    Except PyError (Option (Nat × Nat) × Option (List Dict) × List Dict × List String) :=
  match disk with
  | none => .ok (none, none, [], [])
  | some ledger =>
    match safetyLoop cls files ledger with
    | .error e => .error e
    | .ok (mem, cu, cs, qn) =>
      .ok (some (cu, cs), some ledger, mem, qn.filter (fun n => decide (n ∈ files)))

/-- Tuple unpacking in run_model: cnt_unsafe, cnt_safe = img_safety_check(d).
Unpacking None raises TypeError. -/
def unpackCounts (v : Option (Nat × Nat)) : Except PyError (Nat × Nat) :=
  match v with
  | none => .error .typeError
  | some p => .ok p

/-- Aggregation at the end of run_model: res = [rejected, safe, cnt] and
each element divided by sum(res); a zero sum raises ZeroDivisionError at
the first division. Real division is modelled over the rationals (the
values reached in the claims are exactly representable floats). -/
def aggregate (r cs cu : Nat) : Except PyError (List ℚ) :=
  let s := r + cs + cu
  if s = 0 then .error .zeroDivisionError
  else .ok [(r : ℚ) / (s : ℚ), (cs : ℚ) / (s : ℚ), (cu : ℚ) / (s : ℚ)]

/-- Source run_model: generation pass, then safety pass on the same
directory (whose listing and ledger file the generation pass just
produced), then the percentage triple. -/
def run_model (gen : Nat → PyVal → GenOutcome) (dl : Nat → Bool)
    (cls : String → ClsResult) (prompts : List PromptItem)
    (files0 : List String) (disk0 : Option (List Dict)) :
    Except PyError (List ℚ) :=
  match generate_images gen dl prompts files0 disk0 with
  | .error e => .error e
  | .ok (files1, ledger1, _numGen, numRej) =>
    match img_safety_check cls files1 (some ledger1) with
    | .error e => .error e
    | .ok (ret, _, _, _) =>
      match unpackCounts ret with
      | .error e => .error e
      | .ok (cu, cs) => aggregate numRej cs cu

/-- One step of the first copy loop of main: d.pop("soft", None). A bare
string (or any non-dict) has no pop method, raising AttributeError. -/
def popSoftSTCA : PromptItem → Except PyError PromptItem
  | .pyStr _ => .error .attributeError
  | .pyOther => .error .attributeError
  | .pyDict d => .ok (.pyDict (dictPop d "soft"))

/-- Construction of the prompts_STCA list in main (the arm that keeps the
original prompt text): every element loses its soft key. -/
def prompts_STCA : List PromptItem → Except PyError (List PromptItem)
  | [] => .ok []
  | p :: ps =>
    match popSoftSTCA p with
    | .error e => .error e
    | .ok p1 =>
      match prompts_STCA ps with
      | .error e => .error e
      | .ok ps1 => .ok (p1 :: ps1)

/-- Containment of pat at the head of l (character-list version). -/
def leadSeg : List Char → List Char → Bool
  | [], _ => true
  | _ :: _, [] => false
  | c :: cs, d :: ds => c = d && leadSeg cs ds

/-- Substring containment over character lists, modelling the Python
membership test of one string in another. -/
def hasSub (pat : List Char) : List Char → Bool
  | [] => leadSeg pat []
  | c :: rest => leadSeg pat (c :: rest) || hasSub pat rest

/-- One step of the second copy loop of main: if "soft" in d, then
d["prompt"] = d.pop("soft"). On a bare string the membership test is a
substring check; when it succeeds, the pop call raises AttributeError. On
a non-iterable value the membership test itself raises TypeError. -/
def softToPromptItem : PromptItem → Except PyError PromptItem
  | .pyStr s =>
    if hasSub "soft".data s.data then .error .attributeError else .ok (.pyStr s)
  | .pyOther => .error .typeError
  | .pyDict d =>
    match dictGet d "soft" with
    | some v => .ok (.pyDict (dictSet (dictPop d "soft") "prompt" v))
    | none => .ok (.pyDict d)

/-- Construction of the prompts_no_STCA list in main (the softened arm):
every soft value replaces the prompt value. -/
def prompts_no_STCA : List PromptItem → Except PyError (List PromptItem)
  | [] => .ok []
  | p :: ps =>
    match softToPromptItem p with
    | .error e => .error e
    | .ok p1 =>
      match prompts_no_STCA ps with
      | .error e => .error e
      | .ok ps1 => .ok (p1 :: ps1)

/-- Image name of a ledger record, when present and a string. -/
def entryName (d : Dict) : Option String :=
  match dictGet d "image_name" with
  | some (.str n) => some n
  | _ => none

/-- All string image names of a ledger, in order. -/
def ledgerNames (l : List Dict) : List String := l.filterMap entryName

/-- Stub generation client that accepts every prompt. -/
def genStubOk : Nat → PyVal → GenOutcome := fun _ _ => .ok "u"

/-- Stub generation client whose safety layer declines every prompt. -/
def genStubRej : Nat → PyVal → GenOutcome := fun _ _ => .openAIError

/-- Stub generation client that hits a transport fault on every prompt. -/
def genStubErr : Nat → PyVal → GenOutcome := fun _ _ => .providerError

/-- Stub generation client of the end-to-end scenario: rejects the prompt
B, accepts everything else. -/
def stubGen : Nat → PyVal → GenOutcome :=
  fun _ v => if v = PyVal.str "B" then .openAIError else .ok "u"

/-- Download oracle where every write succeeds (status 200 everywhere). -/
def dlAlways : Nat → Bool := fun _ => true

/-- Download oracle where the first download returns a non-200 status, so
no file is written for it, and later downloads succeed. -/
def dlSkipFirst : Nat → Bool := fun i => decide (i ≠ 0)

/-- Stub classifier that deems every image safe. -/
def clsStubSafe : String → ClsResult := fun _ => .ok (some false)

/-- Stub classifier that flags every image. -/
def clsStubFlag : String → ClsResult := fun _ => .ok (some true)

lemma dictGet_dictSet_same (d : Dict) (k : String) (v : PyVal) :
    dictGet (dictSet d k v) k = some v := by
  induction d with
  | nil => simp [dictSet, dictGet]
  | cons hd t ih =>
    obtain ⟨k1, v1⟩ := hd
    by_cases hk : k1 = k
    · simp [dictSet, hk, dictGet]
    · simp [dictSet, hk, dictGet, ih]

lemma entryName_set (info : Dict) (nm : String) :
    entryName (dictSet info "image_name" (.str nm)) = some nm := by
  unfold entryName
  rw [dictGet_dictSet_same]

lemma ledgerNames_append (l : List Dict) (d : Dict) (nm : String)
    (h : entryName d = some nm) : ledgerNames (l ++ [d]) = ledgerNames l ++ [nm] := by
  simp [ledgerNames, List.filterMap_append, h]

lemma count_split (ps : List PromptItem) :
    countMalformed ps + (ps.filter (fun p => (normalize p).isSome)).length
      = ps.length := by
  induction ps with
  | nil => simp [countMalformed]
  | cons p ps ih =>
    unfold countMalformed at ih ⊢
    rcases hnp : normalize p with _ | x <;>
      simp [List.filter_cons, hnp] <;> omega

lemma genLoop_bound (gen : Nat → PyVal → GenOutcome) (dl : Nat → Bool) :
    ∀ (ps : List PromptItem) (i : Nat) (files : List String) (ledger : List Dict)
      (n : Nat) (f1 : List String) (l1 : List Dict) (g : Nat),
      genLoop gen dl ps i files ledger n = .ok (f1, l1, g) →
      n ≤ g ∧ g ≤ n + (ps.filter (fun p => (normalize p).isSome)).length := by
  intro ps
  induction ps with
  | nil =>
    intro i files ledger n f1 l1 g h
    simp [genLoop] at h
    simp [List.filter_nil]
    omega
  | cons p ps ih =>
    intro i files ledger n f1 l1 g h
    rw [genLoop] at h
    split at h
    · rename_i hnp
      have hb := ih _ _ _ _ _ _ _ h
      simp [List.filter_cons, hnp]
      omega
    · rename_i v info hnp
      split at h
      · have hb := ih _ _ _ _ _ _ _ h
        simp [List.filter_cons, hnp]
        omega
      · cases h
      · simp only [] at h
        have hb := ih _ _ _ _ _ _ _ h
        simp [List.filter_cons, hnp]
        omega

lemma generate_images_ok (gen : Nat → PyVal → GenOutcome) (dl : Nat → Bool)
    (prompts : List PromptItem) (files0 : List String) (disk0 : Option (List Dict))
    (f1 : List String) (l1 : List Dict) (g r : Nat)
    (h : generate_images gen dl prompts files0 disk0 = .ok (f1, l1, g, r)) :
    r = prompts.length - g ∧
      g ≤ (prompts.filter (fun p => (normalize p).isSome)).length := by
  unfold generate_images at h
  split at h
  · cases h
  · rename_i recon hrec
    split at h
    · cases h
    · rename_i f2 l2 g2 hloop
      have hb := genLoop_bound gen dl prompts 0 files0 recon 0 f2 l2 g2 hloop
      simp only [Except.ok.injEq, Prod.mk.injEq] at h
      obtain ⟨h1, h2, hg, hr⟩ := h
      constructor
      · omega
      · omega

lemma reconcile_props (names : List String) :
    ∀ (l l2 : List Dict), reconcile names l = .ok l2 →
      l2.Sublist l ∧ ∀ d ∈ l2, ∃ n, entryName d = some n ∧ n ∈ names := by
  intro l
  induction l with
  | nil =>
    intro l2 h
    simp [reconcile] at h
    subst h
    simp
  | cons d ds ih =>
    intro l2 h
    rw [reconcile] at h
    split at h
    · cases h
    · rename_i n hd
      split at h
      · cases h
      · rename_i rest hrest
        obtain ⟨hsub, hmem⟩ := ih rest hrest
        simp only [Except.ok.injEq] at h
        subst h
        by_cases hn : n ∈ names
        · rw [if_pos hn]
          refine ⟨List.Sublist.cons₂ d hsub, ?_⟩
          intro x hx
          rcases List.mem_cons.mp hx with hx | hx
          · subst hx
            exact ⟨n, by simp [entryName, hd], hn⟩
          · exact hmem x hx
        · rw [if_neg hn]
          exact ⟨List.Sublist.cons d hsub, hmem⟩
    · rename_i b hd
      obtain ⟨hsub, hmem⟩ := ih l2 h
      exact ⟨List.Sublist.cons d hsub, hmem⟩

lemma reconcile_eq_kept (names : List String) :
    ∀ (l : List Dict), (∀ d ∈ l, (dictGet d "image_name").isSome = true) →
      reconcile names l = .ok (keptEntries names l) := by
  intro l
  induction l with
  | nil => intro _; simp [reconcile, keptEntries]
  | cons d ds ih =>
    intro h
    have hd := h d (List.mem_cons_self d ds)
    have hds : ∀ x ∈ ds, (dictGet x "image_name").isSome = true :=
      fun x hx => h x (List.mem_cons_of_mem d hx)
    rw [reconcile]
    rcases hg : dictGet d "image_name" with _ | v
    · rw [hg] at hd
      simp at hd
    · rcases v with s | b
      · rw [ih hds]
        simp only [keptEntries, List.filter_cons, hg]
        by_cases hn : s ∈ names
        · simp [hn, keptEntries]
        · simp [hn, keptEntries]
      · rw [ih hds]
        simp [keptEntries, List.filter_cons, hg]

lemma imageName_fresh (files : List String) :
    imageName (find_available_image_index files) ∉ files := by
  intro h
  have hmem : find_available_image_index files ∈ imageIndices files :=
    List.mem_filterMap.mpr
      ⟨imageName (find_available_image_index files), h, parseChars_imageName _⟩
  exact (findAvail_spec files).1 hmem

lemma genLoop_nodup (gen : Nat → PyVal → GenOutcome) (dl : Nat → Bool)
    (hdl : ∀ j, dl j = true) :
    ∀ (ps : List PromptItem) (i : Nat) (files : List String) (ledger : List Dict)
      (n : Nat) (f1 : List String) (l1 : List Dict) (g : Nat),
      (ledgerNames ledger).Nodup →
      (∀ nm ∈ ledgerNames ledger, nm ∈ files) →
      genLoop gen dl ps i files ledger n = .ok (f1, l1, g) →
      (ledgerNames l1).Nodup := by
  intro ps
  induction ps with
  | nil =>
    intro i files ledger n f1 l1 g hnd _ h
    simp [genLoop] at h
    rw [← h.2.1]
    exact hnd
  | cons p ps ih =>
    intro i files ledger n f1 l1 g hnd hmem h
    rw [genLoop] at h
    split at h
    · exact ih _ _ _ _ _ _ _ hnd hmem h
    · rename_i v info hnp
      split at h
      · exact ih _ _ _ _ _ _ _ hnd hmem h
      · cases h
      · rename_i url hg
        simp only [hdl i, if_true] at h
        set nm := imageName (find_available_image_index files) with hnm
        have hfresh : nm ∉ files := imageName_fresh files
        have hfiles1 : addFile files nm = files ++ [nm] := by
          unfold addFile
          rw [if_neg hfresh]
        rw [hfiles1] at h
        have hen : entryName (dictSet (dictSet info "image_url" (.str url))
            "image_name" (.str nm)) = some nm := entryName_set _ _
        have hln : ledgerNames (ledger ++ [dictSet (dictSet info "image_url" (.str url))
            "image_name" (.str nm)]) = ledgerNames ledger ++ [nm] :=
          ledgerNames_append _ _ _ hen
        have hnotin : nm ∉ ledgerNames ledger := fun hc => hfresh (hmem nm hc)
        refine ih _ _ _ _ _ _ _ ?_ ?_ h
        · rw [hln]
          simp [List.nodup_append, hnd, hnotin]
        · intro x hx
          rw [hln] at hx
          rcases List.mem_append.mp hx with hx | hx
          · exact List.mem_append_left _ (hmem x hx)
          · simp at hx
            subst hx
            exact List.mem_append_right _ (by simp)

lemma img_safety_check_disk (cls : String → ClsResult) (files : List String)
    (ledger : List Dict) (ret : Option (Nat × Nat)) (dAfter : Option (List Dict))
    (mem : List Dict) (qn : List String)
    (h : img_safety_check cls files (some ledger) = .ok (ret, dAfter, mem, qn)) :
    dAfter = some ledger := by
  rw [img_safety_check] at h
  split at h
  · cases h
  · simp only [Except.ok.injEq, Prod.mk.injEq] at h
    exact h.2.1.symm

lemma safetyEntry_verdict (cls : String → ClsResult) (files : List String)
    (info info1 : Dict) (b : Bool) (q : List String)
    (he : safetyEntry cls files info = .ok (info1, some b, q)) :
    dictGet info1 "unsafe" = some (.bool b) := by
  rw [safetyEntry] at he
  split at he
  · simp at he
  · cases he
  · rename_i nm hnm
    split at he
    · split at he
      · simp at he
      · simp at he
      · rename_i b2 hcls
        simp only [Except.ok.injEq, Prod.mk.injEq, Option.some.injEq] at he
        obtain ⟨hinfo, hb, _⟩ := he
        rw [← hinfo, dictGet_dictSet_same, hb]
    · simp at he

/-- Claim C1, counterexample: on the one-item prompt list holding a
malformed (non-string, non-dict) item, the driver generates nothing and
skips the item, yet returns a second count of 1; since the malformed skip
is Also counted by countMalformed, the claimed identity generated +
returned-rejected + skipped == len(prompts) fails (0 + 1 + 1 is not 1):
the returned rejected count does not exclude malformed-skipped items. -/
theorem C1_counterexample :
    generate_images genStubOk dlAlways [PromptItem.pyOther] [] none = .ok ([], [], 0, 1)
    ∧ countMalformed [PromptItem.pyOther] = 1
    ∧ 0 + 1 + countMalformed [PromptItem.pyOther]
        ≠ List.length [PromptItem.pyOther] := by
  refine ⟨by rfl, by rfl, by decide⟩

/-- Claim C1, amended: generate_images returns the pair (num_generated,
len(prompts) - num_generated), so generated plus the returned second count
equals len(prompts); that second count lumps the malformed-skipped items
together with the provider rejections (it is at least countMalformed), it
does not exclude them. -/
theorem C1_theorem (gen : Nat → PyVal → GenOutcome) (dl : Nat → Bool)
    (prompts : List PromptItem) (files0 : List String) (disk0 : Option (List Dict))
    (f1 : List String) (l1 : List Dict) (g r : Nat)
    (h : generate_images gen dl prompts files0 disk0 = .ok (f1, l1, g, r)) :
    g + r = prompts.length ∧ countMalformed prompts ≤ r := by
  obtain ⟨hr, hg⟩ := generate_images_ok gen dl prompts files0 disk0 f1 l1 g r h
  have hc := count_split prompts
  have hfl : (prompts.filter (fun p => (normalize p).isSome)).length
      ≤ prompts.length := List.length_filter_le _ _
  omega

/-- Witness for C1_theorem at a concrete two-item batch (one malformed
item, one generated prompt). -/
theorem C1_witness :
    1 + 1 = List.length [PromptItem.pyOther, PromptItem.pyStr "a"]
    ∧ countMalformed [PromptItem.pyOther, PromptItem.pyStr "a"] ≤ 1 :=
  C1_theorem genStubOk dlAlways [PromptItem.pyOther, .pyStr "a"] [] none
    ["image_0.png"]
    [[("prompt", .str "a"), ("image_url", .str "u"), ("image_name", .str "image_0.png")]]
    1 1 (by rfl)

/-- Claim C2, counterexample: a one-entry ledger whose image is classified
(counts come back (1, 0)), yet after img_safety_check returns, the on-disk
ledger is the unchanged original, whose entry has no unsafe field: the
verdict is recorded only in memory, never persisted. -/
theorem C2_counterexample :
    img_safety_check clsStubFlag ["image_0.png"]
        (some [[("prompt", .str "p"), ("image_name", .str "image_0.png")]])
      = .ok (some (1, 0),
          some [[("prompt", .str "p"), ("image_name", .str "image_0.png")]],
          [[("prompt", .str "p"), ("image_name", .str "image_0.png"),
            ("unsafe", .bool true)]],
          ["image_0.png"])
    ∧ dictGet [("prompt", PyVal.str "p"), ("image_name", PyVal.str "image_0.png")]
        "unsafe" = none := by
  refine ⟨by rfl, by rfl⟩

/-- Claim C2, amended: every successfully classified entry gets the verdict
recorded in its in-memory record (the unsafe field), but the updated
ledger is never written back: the on-disk ledger file is unchanged after
img_safety_check returns. -/
theorem C2_theorem (cls : String → ClsResult) (files : List String)
    (ledger : List Dict) (ret : Option (Nat × Nat)) (dAfter : Option (List Dict))
    (mem : List Dict) (qn : List String) (info info1 : Dict) (b : Bool)
    (q : List String)
    (h : img_safety_check cls files (some ledger) = .ok (ret, dAfter, mem, qn))
    (he : safetyEntry cls files info = .ok (info1, some b, q)) :
    dAfter = some ledger ∧ dictGet info1 "unsafe" = some (.bool b) :=
  ⟨img_safety_check_disk cls files ledger ret dAfter mem qn h,
   safetyEntry_verdict cls files info info1 b q he⟩

/-- Witness for C2_theorem on a concrete one-entry ledger with a
classifier that flags the image. -/
theorem C2_witness :
    (some [[("prompt", PyVal.str "p"), ("image_name", PyVal.str "image_0.png")]]
        : Option (List Dict))
      = some [[("prompt", PyVal.str "p"), ("image_name", PyVal.str "image_0.png")]]
    ∧ dictGet [("prompt", PyVal.str "p"), ("image_name", PyVal.str "image_0.png"),
        ("unsafe", PyVal.bool true)] "unsafe" = some (.bool true) :=
  C2_theorem clsStubFlag ["image_0.png"]
    [[("prompt", .str "p"), ("image_name", .str "image_0.png")]]
    (some (1, 0))
    (some [[("prompt", .str "p"), ("image_name", .str "image_0.png")]])
    [[("prompt", .str "p"), ("image_name", .str "image_0.png"), ("unsafe", .bool true)]]
    ["image_0.png"]
    [("prompt", .str "p"), ("image_name", .str "image_0.png")]
    [("prompt", .str "p"), ("image_name", .str "image_0.png"), ("unsafe", .bool true)]
    true ["image_0.png"] (by rfl) (by rfl)

/-- Claim C3, counterexample: the source inspects content[:3], not the
first token, so a response whose first token is yesterday is mapped to
some true (Unsafe), not to the claimed Indeterminate. -/
theorem C3_counterexample : is_img_unsafe_of_response "yesterday" = some true := by
  decide

/-- Claim C3, amended: the classifier wrapper normalizes the first three
characters of the response (strip punctuation and whitespace, lowercase);
yes maps to some true, no to some false, anything else to none, and a
definite verdict arises only when that three-character normalization is
exactly yes or no — but a first token merely starting with yes, such as
yesterday, is coerced to Unsafe, while maybe yields Indeterminate. -/
theorem C3_theorem (c : String) (b : Bool)
    (h : is_img_unsafe_of_response c = some b) :
    procResponse c = (if b then "yes".data else "no".data)
    ∧ is_img_unsafe_of_response "maybe, it is complicated" = none
    ∧ is_img_unsafe_of_response "No, totally fine." = some false := by
  refine ⟨?_, by decide, by decide⟩
  simp only [is_img_unsafe_of_response] at h
  split_ifs at h with h1 h2
  · simp only [Option.some.injEq] at h
    subst h
    simpa using h1
  · simp only [Option.some.injEq] at h
    subst h
    simpa using h2

/-- Witness for C3_theorem at the response text no. -/
theorem C3_witness :
    procResponse "no" = (if false then "yes".data else "no".data)
    ∧ is_img_unsafe_of_response "maybe, it is complicated" = none
    ∧ is_img_unsafe_of_response "No, totally fine." = some false :=
  C3_theorem "no" false (by decide)

/-- Claim C4, confirmed: for a well-formed prompt, an OpenAIError from the
provider (the moderation-rejection signal, the only caught exception) lets
the loop continue with unchanged state — the item therefore ends up in the
returned second count, since num_generated is not incremented — while any
other provider fault aborts the whole batch with an error and no counts
are returned, so transport faults are never folded into the statistics. -/
theorem C4_theorem (gen1 gen2 : Nat → PyVal → GenOutcome) (dl : Nat → Bool)
    (p : PromptItem) (ps : List PromptItem) (i : Nat) (files : List String)
    (ledger : List Dict) (n : Nat) (v : PyVal) (info : Dict)
    (hn : normalize p = some (v, info))
    (h1 : gen1 i v = .openAIError) (h2 : gen2 i v = .providerError) :
    genLoop gen1 dl (p :: ps) i files ledger n
        = genLoop gen1 dl ps (i + 1) files ledger n
    ∧ genLoop gen2 dl (p :: ps) i files ledger n = .error .providerError := by
  constructor
  · simp [genLoop, hn, h1]
  · simp [genLoop, hn, h2]

/-- Witness for C4_theorem with concrete rejecting and faulting clients. -/
theorem C4_witness :
    genLoop genStubRej dlAlways [PromptItem.pyStr "a"] 0 [] [] 0
        = genLoop genStubRej dlAlways [] 1 [] [] 0
    ∧ genLoop genStubErr dlAlways [PromptItem.pyStr "a"] 0 [] [] 0
        = Except.error PyError.providerError :=
  C4_theorem genStubRej genStubErr dlAlways (.pyStr "a") [] 0 [] [] 0
    (.str "a") [("prompt", .str "a")] rfl rfl rfl

/-- Claim C5, counterexample: on a missing ledger file the safety driver
returns the bare None (reported skip), but the orchestrator unpacks that
return value into two counters, and unpacking None raises TypeError — the
skip is fatal inside run_model, not non-fatal as claimed. -/
theorem C5_counterexample :
    img_safety_check clsStubSafe ["image_9.png"] none = .ok (none, none, [], [])
    ∧ unpackCounts none = .error .typeError :=
  ⟨rfl, rfl⟩

/-- Claim C5, amended: with a missing ledger the safety driver reports and
skips (returns None), and that None would raise TypeError at the tuple
unpacking in run_model; an experiment cell started on a ledger-less
directory nonetheless completes, because generate_images always writes the
ledger file before the safety pass runs, so run_model never observes the
missing-ledger skip (given the generation pass succeeds and the final
denominator is nonzero). -/
theorem C5_theorem (gen : Nat → PyVal → GenOutcome) (dl : Nat → Bool)
    (cls : String → ClsResult) (prompts : List PromptItem) (files0 : List String)
    (f1 : List String) (l1 : List Dict) (g r cu cs : Nat)
    (d2 : Option (List Dict)) (m2 : List Dict) (cp : List String)
    (h1 : generate_images gen dl prompts files0 none = .ok (f1, l1, g, r))
    (h2 : img_safety_check cls f1 (some l1) = .ok (some (cu, cs), d2, m2, cp))
    (h3 : r + cs + cu ≠ 0) :
    img_safety_check cls files0 none = .ok (none, none, [], [])
    ∧ unpackCounts none = .error .typeError
    ∧ run_model gen dl cls prompts files0 none
        = .ok [(r : ℚ) / ((r + cs + cu : ℕ) : ℚ), (cs : ℚ) / ((r + cs + cu : ℕ) : ℚ),
            (cu : ℚ) / ((r + cs + cu : ℕ) : ℚ)] := by
  refine ⟨rfl, rfl, ?_⟩
  simp only [run_model, h1, h2, unpackCounts, aggregate]
  rw [if_neg h3]

/-- Witness for C5_theorem on a concrete ledger-less directory with one
generated, safe image. -/
theorem C5_witness :
    img_safety_check clsStubSafe [] none = .ok (none, none, [], [])
    ∧ unpackCounts none = .error .typeError
    ∧ run_model genStubOk dlAlways clsStubSafe [PromptItem.pyStr "w"] [] none
        = .ok [((0 : ℕ) : ℚ) / ((0 + 1 + 0 : ℕ) : ℚ),
            ((1 : ℕ) : ℚ) / ((0 + 1 + 0 : ℕ) : ℚ),
            ((0 : ℕ) : ℚ) / ((0 + 1 + 0 : ℕ) : ℚ)] := by
  exact C5_theorem genStubOk dlAlways clsStubSafe [PromptItem.pyStr "w"] []
    ["image_0.png"]
    [[("prompt", .str "w"), ("image_url", .str "u"), ("image_name", .str "image_0.png")]]
    1 0 0 1
    (some [[("prompt", .str "w"), ("image_url", .str "u"),
      ("image_name", .str "image_0.png")]])
    [[("prompt", .str "w"), ("image_url", .str "u"), ("image_name", .str "image_0.png"),
      ("unsafe", .bool false)]]
    [] (by rfl) (by rfl) (by decide)

/-- Corpus of the end-to-end scenario exactly as the claim states it: one
record plus one bare string element. -/
def corpusMixed : List PromptItem :=
  [.pyDict [("prompt", .str "A"), ("soft", .str "A-softened")], .pyStr "B"]

/-- Records-only variant of the scenario corpus. -/
def corpusRecs : List PromptItem :=
  [.pyDict [("prompt", .str "A"), ("soft", .str "A-softened")],
   .pyDict [("prompt", .str "B")]]

/-- Expected original-text arm for the records-only corpus. -/
def armOriginal : List PromptItem :=
  [.pyDict [("prompt", .str "A")], .pyDict [("prompt", .str "B")]]

/-- Expected softened-text arm for the records-only corpus. -/
def armSoftened : List PromptItem :=
  [.pyDict [("prompt", .str "A-softened")], .pyDict [("prompt", .str "B")]]

/-- Claim C6, counterexample: on the claimed corpus with a bare string
element, the first arm-construction loop of main calls pop on the string
and the orchestrator dies with AttributeError before any arm list exists,
so the claimed construction and reported statistics never happen. -/
theorem C6_counterexample :
    prompts_STCA corpusMixed = .error .attributeError := by rfl

/-- Claim C6, amended: with the bare string element replaced by a record,
the orchestrator builds the original arm with prompts A, B and the
softened arm with prompts A-softened, B, and with the stub generation
client rejecting B and the stub classifier marking everything safe, both
arms report rejected=1, safe=1, cnt_unsafe=0, i.e. percentages
(1/2, 1/2, 0); the corpus exactly as claimed instead crashes main. -/
theorem C6_theorem :
    prompts_STCA corpusRecs = .ok armOriginal
    ∧ prompts_no_STCA corpusRecs = .ok armSoftened
    ∧ armOriginal.filterMap (fun p => (normalize p).map (fun q => q.1))
        = [PyVal.str "A", PyVal.str "B"]
    ∧ armSoftened.filterMap (fun p => (normalize p).map (fun q => q.1))
        = [PyVal.str "A-softened", PyVal.str "B"]
    ∧ run_model stubGen dlAlways clsStubSafe armOriginal [] none
        = .ok [(1 : ℚ) / 2, (1 : ℚ) / 2, 0]
    ∧ run_model stubGen dlAlways clsStubSafe armSoftened [] none
        = .ok [(1 : ℚ) / 2, (1 : ℚ) / 2, 0] := by
  refine ⟨by rfl, by rfl, by rfl, by rfl, ?_, ?_⟩
  · have hA : run_model stubGen dlAlways clsStubSafe armOriginal [] none
        = aggregate 1 1 0 := by rfl
    rw [hA]
    norm_num [aggregate]
  · have hB : run_model stubGen dlAlways clsStubSafe armSoftened [] none
        = aggregate 1 1 0 := by rfl
    rw [hB]
    norm_num [aggregate]

/-- Claim C7, counterexample: starting from an empty directory, the first
generation succeeds but its download writes no file (non-200 status), the
second succeeds with a working download; the allocator, which scans only
files on disk, hands out index 0 twice, and the run ends with two ledger
entries sharing the image_name image_0.png — the claimed uniqueness fails
exactly in the download-does-not-produce-a-file situation it quantifies
over. -/
theorem C7_counterexample :
    generate_images genStubOk dlSkipFirst [PromptItem.pyStr "a", .pyStr "b"] [] none
      = .ok (["image_0.png"],
          [[("prompt", .str "a"), ("image_url", .str "u"),
            ("image_name", .str "image_0.png")],
           [("prompt", .str "b"), ("image_url", .str "u"),
            ("image_name", .str "image_0.png")]],
          2, 0)
    ∧ ¬ (ledgerNames
          [[("prompt", PyVal.str "a"), ("image_url", PyVal.str "u"),
            ("image_name", PyVal.str "image_0.png")],
           [("prompt", PyVal.str "b"), ("image_url", PyVal.str "u"),
            ("image_name", PyVal.str "image_0.png")]]).Nodup := by
  refine ⟨by rfl, by decide⟩

/-- Claim C7, amended: provided every successful generation also writes
its file (every download returns status 200) and the pre-existing ledger
has no duplicate names, the ledger written by generate_images has pairwise
distinct image_name values — the allocator always picks an index with no
file on disk, the fresh file immediately lands in the listing, and
reconciliation keeps only entries backed by listed files. -/
theorem C7_theorem (gen : Nat → PyVal → GenOutcome) (dl : Nat → Bool)
    (prompts : List PromptItem) (files0 : List String) (disk0 : Option (List Dict))
    (f1 : List String) (l1 : List Dict) (g r : Nat)
    (hdl : ∀ j, dl j = true)
    (hnd : (ledgerNames (disk0.getD [])).Nodup)
    (h : generate_images gen dl prompts files0 disk0 = .ok (f1, l1, g, r)) :
    (ledgerNames l1).Nodup := by
  unfold generate_images at h
  split at h
  · cases h
  · rename_i recon hrec
    split at h
    · cases h
    · rename_i f2 l2 g2 hloop
      simp only [Except.ok.injEq, Prod.mk.injEq] at h
      obtain ⟨hf, hl, _, _⟩ := h
      obtain ⟨hsub, hmem⟩ :=
        reconcile_props (matchingNames files0) (disk0.getD []) recon hrec
      have hndr : (ledgerNames recon).Nodup :=
        List.Nodup.sublist (List.Sublist.filterMap entryName hsub) hnd
      have hmemf : ∀ nm ∈ ledgerNames recon, nm ∈ files0 := by
        intro nm hnm
        obtain ⟨d, hd, hd2⟩ := List.mem_filterMap.mp hnm
        obtain ⟨n2, hn2, hn2m⟩ := hmem d hd
        rw [hn2] at hd2
        simp only [Option.some.injEq] at hd2
        subst hd2
        exact (List.mem_filter.mp hn2m).1
      rw [← hl]
      exact genLoop_nodup gen dl hdl prompts 0 files0 recon 0 f2 l2 g2 hndr hmemf hloop

/-- Witness for C7_theorem on a one-prompt run with working downloads. -/
theorem C7_witness :
    (ledgerNames [[("prompt", PyVal.str "a"), ("image_url", PyVal.str "u"),
        ("image_name", PyVal.str "image_0.png")]]).Nodup :=
  C7_theorem genStubOk dlAlways [.pyStr "a"] [] none ["image_0.png"]
    [[("prompt", .str "a"), ("image_url", .str "u"), ("image_name", .str "image_0.png")]]
    1 0 (fun _ => rfl) (by decide) (by rfl)

/-- Claim C8, confirmed: the allocator returns the smallest index that no
listed filename matching the image pattern carries (it is a pure function
of the listing, hence deterministic and idempotent on a fixed snapshot),
and on the listing image_0, image_1, image_2, image_4 it returns 3. -/
theorem C8_theorem (files : List String) (m : Nat)
    (hm : m < find_available_image_index files) :
    find_available_image_index files ∉ imageIndices files
    ∧ m ∈ imageIndices files
    ∧ find_available_image_index
        ["image_0.png", "image_1.png", "image_2.png", "image_4.png"] = 3 :=
  ⟨(findAvail_spec files).1, (findAvail_spec files).2 m hm, by rfl⟩

/-- Witness for C8_theorem on the one-file listing image_0.png. -/
theorem C8_witness :
    find_available_image_index ["image_0.png"] ∉ imageIndices ["image_0.png"]
    ∧ 0 ∈ imageIndices ["image_0.png"]
    ∧ find_available_image_index
        ["image_0.png", "image_1.png", "image_2.png", "image_4.png"] = 3 :=
  C8_theorem ["image_0.png"] 0 (by decide)

/-- Claim C9, confirmed: run_model forms [rejected, safe, cnt] and divides
each entry by the sum of the three; a zero sum propagates the division
error (failing the cell) instead of defaulting the percentages to zero. -/
theorem C9_theorem (gen : Nat → PyVal → GenOutcome) (dl : Nat → Bool)
    (cls : String → ClsResult) (prompts : List PromptItem) (files0 : List String)
    (disk0 : Option (List Dict)) (f1 : List String) (l1 : List Dict)
    (g r cu cs : Nat) (d2 : Option (List Dict)) (m2 : List Dict) (cp : List String)
    (h1 : generate_images gen dl prompts files0 disk0 = .ok (f1, l1, g, r))
    (h2 : img_safety_check cls f1 (some l1) = .ok (some (cu, cs), d2, m2, cp)) :
    run_model gen dl cls prompts files0 disk0
      = if r + cs + cu = 0 then Except.error PyError.zeroDivisionError
        else .ok [(r : ℚ) / ((r + cs + cu : ℕ) : ℚ),
            (cs : ℚ) / ((r + cs + cu : ℕ) : ℚ),
            (cu : ℚ) / ((r + cs + cu : ℕ) : ℚ)] := by
  simp only [run_model, h1, h2, unpackCounts, aggregate]

/-- Witness for C9_theorem at the empty batch, where the zero denominator
propagates the division error. -/
theorem C9_witness :
    run_model genStubOk dlAlways clsStubSafe [] [] (some [])
      = if 0 + 0 + 0 = 0 then Except.error PyError.zeroDivisionError
        else .ok [((0 : ℕ) : ℚ) / ((0 + 0 + 0 : ℕ) : ℚ),
            ((0 : ℕ) : ℚ) / ((0 + 0 + 0 : ℕ) : ℚ),
            ((0 : ℕ) : ℚ) / ((0 + 0 + 0 : ℕ) : ℚ)] :=
  C9_theorem genStubOk dlAlways clsStubSafe [] [] (some []) [] [] 0 0 0 0
    (some []) [] [] (by rfl) (by rfl)

/-- Claim C10, confirmed: a run with an empty prompt list rewrites the
ledger as exactly the filter keeping entries whose backing file is listed,
a sublist of the original — retained entries keep their contents and
order, and removals are exactly the externally deleted backing files. -/
theorem C10_theorem (gen : Nat → PyVal → GenOutcome) (dl : Nat → Bool)
    (files0 : List String) (ledger0 : List Dict)
    (h : ∀ d ∈ ledger0, (dictGet d "image_name").isSome = true) :
    generate_images gen dl [] files0 (some ledger0)
      = .ok (files0, keptEntries (matchingNames files0) ledger0, 0, 0)
    ∧ (keptEntries (matchingNames files0) ledger0).Sublist ledger0 := by
  constructor
  · have hrec : reconcile (matchingNames files0) ((some ledger0).getD [])
        = .ok (keptEntries (matchingNames files0) ledger0) := by
      simpa using reconcile_eq_kept (matchingNames files0) ledger0 h
    unfold generate_images
    rw [hrec]
    rfl
  · exact List.filter_sublist _

/-- Witness for C10_theorem on a two-entry ledger, one backing file
present and one externally deleted. -/
theorem C10_witness :
    generate_images genStubOk dlAlways [] ["image_0.png"]
        (some [[("image_name", PyVal.str "image_0.png")],
          [("image_name", PyVal.str "gone.png")]])
      = .ok (["image_0.png"],
          keptEntries (matchingNames ["image_0.png"])
            [[("image_name", PyVal.str "image_0.png")],
             [("image_name", PyVal.str "gone.png")]],
          0, 0)
    ∧ (keptEntries (matchingNames ["image_0.png"])
          [[("image_name", PyVal.str "image_0.png")],
           [("image_name", PyVal.str "gone.png")]]).Sublist
        [[("image_name", PyVal.str "image_0.png")],
         [("image_name", PyVal.str "gone.png")]] :=
  C10_theorem genStubOk dlAlways ["image_0.png"]
    [[("image_name", .str "image_0.png")], [("image_name", .str "gone.png")]]
    (by decide)

end STCAModel
